import Mathlib

/-!
Verification of the QR-overlay batch processor in `QR_on_stream.py`.

The script overlays one QR code per PDF page, with the QR payload taken from
the same-index row of a CSV file's "URL" column.  We embed the placement
arithmetic (lines 133-140), the caption condition (lines 145-147), the
page/row pairing loop with its early `break` (lines 118-157), the pre-loop
column validation (lines 106-110), and the temporary-directory lifecycle
(lines 102-104 and 163, inside the `try`/`except` of lines 101-176).

External collaborators (the QR rasteriser, the PDF reader/writer, the
reportlab canvas) are treated as opaque: a QR overlay is recorded as the
payload string, the placement rectangle, and the optional caption; a page is
an opaque content id together with its mediabox width.  A possible failure of
a single pair's processing (e.g. the QR encoder raising on a malformed value)
is modelled by a boolean oracle `qrOk` consulted per URL.
-/

/-- The sidebar radio button `h_anchor`: "From Right Edge" or "From Left Edge". -/
inductive HAnchor where
  | rightEdge
  | leftEdge
deriving DecidableEq

/-- The ambient widget state the script reads during a run, gathered into one
record: anchor choice, `x_input`, `y_position`, `qr_size`, `show_text`,
`custom_text`, `text_font_size`. -/
structure Config where
  h_anchor : HAnchor
  x_input : ℚ
  y_position : ℚ
  qr_size : ℚ
  show_text : Bool
  custom_text : String
  text_font_size : ℚ
deriving DecidableEq

/-- A PDF page as the loop sees it: its mediabox width and an opaque handle
for its graphical content. -/
structure Page where
  width : ℚ
  contentId : ℕ
deriving DecidableEq

/-- The parsed CSV: the header (`df.columns`) and the rows, each row an
association from column name to cell value. -/
structure DataFrame where
  columns : List String
  rows : List (List (String × String))
deriving DecidableEq

/-- The cell `df.iloc[i]["URL"]` (meaningful when the "URL" column exists and
`i < len(df)`, which is how the script uses it). -/
def DataFrame.urlAt (df : DataFrame) (i : ℕ) : String :=
  ((df.rows.getD i []).lookup "URL").getD ""

/-- A caption drawn by `c.drawCentredString` at lines 146-147: centred at
`(cx, cy)` in font size `fontSize`, with the given text. -/
structure Caption where
  cx : ℚ
  cy : ℚ
  fontSize : ℚ
  text : String
deriving DecidableEq

/-- One QR overlay as produced by the per-pair body: the encoded payload, the
rectangle `(x, y, qr_size, qr_size)` passed to `c.drawImage`, and the optional
caption. -/
structure OverlaySpec where
  payload : String
  x : ℚ
  y : ℚ
  size : ℚ
  caption : Option Caption
deriving DecidableEq

/-- An output page: the original base page (`merge_page` keeps its content
underneath) plus the overlays composited onto it. -/
structure OutPage where
  base : Page
  overlays : List OverlaySpec
deriving DecidableEq

def defaultPage : Page := ⟨0, 0⟩

def defaultOutPage : OutPage := ⟨defaultPage, []⟩

/-- Position logic of lines 133-140: `x = page_width - qr_size - x_input`
when anchored to the right edge, `x = x_input` when anchored to the left
edge; `y = y_position`.  No clamping is applied. -/
def placement (cfg : Config) (page_width : ℚ) : ℚ × ℚ :=
  (match cfg.h_anchor with
    | HAnchor.rightEdge => page_width - cfg.qr_size - cfg.x_input
    | HAnchor.leftEdge => cfg.x_input,
   cfg.y_position)

/-- The caption condition of lines 145-147: `if show_text and custom_text:`
(a non-empty string is truthy), drawing centred at
`(x + qr_size / 2, y - 10)` with `text_font_size`. -/
def captionOf (cfg : Config) (x y : ℚ) : Option Caption :=
  if cfg.show_text = true ∧ cfg.custom_text ≠ "" then
    some ⟨x + cfg.qr_size / 2, y - 10, cfg.text_font_size, cfg.custom_text⟩
  else
    none

/-- The overlay produced for payload `url` on a page of width `page_width`. -/
def mkOverlay (cfg : Config) (url : String) (page_width : ℚ) : OverlaySpec :=
  { payload := url
    x := (placement cfg page_width).1
    y := (placement cfg page_width).2
    size := cfg.qr_size
    caption := captionOf cfg (placement cfg page_width).1 (placement cfg page_width).2 }

/-- The merged page appended by `writer.add_page` for pair `i`: base page `i`
with exactly the one overlay built from row `i`'s URL and the page's width. -/
def pairOut (cfg : Config) (pages : List Page) (df : DataFrame) (i : ℕ) : OutPage :=
  { base := pages.getD i defaultPage
    overlays := [mkOverlay cfg (df.urlAt i) (pages.getD i defaultPage).width] }

/-- The progress fraction reported after pair `j`: `(j + 1) / total_pages`
(line 157). -/
def progressAt (total : ℕ) (j : ℕ) : ℚ :=
  ((j + 1 : ℕ) : ℚ) / (total : ℚ)

/-- The `for i in range(total_pages)` loop of lines 118-157, starting at index
`i` with `total - i` iterations of fuel remaining.  Returns the pages added to
the writer, the progress fractions reported, and `some msg` if a pair's
processing raised (aborting the loop).  `if i >= len(df): break` ends the loop
early without touching the remaining pages. -/
def runLoop (cfg : Config) (qrOk : String → Bool) (pages : List Page)
    (df : DataFrame) (total : ℕ) : ℕ → ℕ → List OutPage × List ℚ × Option String
  | _, 0 => ([], [], none)
  | i, Nat.succ rem =>
    if df.rows.length ≤ i then
      ([], [], none)
    else if qrOk (df.urlAt i) = false then
      ([], [], some "QR generation failed")
    else
      (pairOut cfg pages df i :: (runLoop cfg qrOk pages df total (i + 1) rem).1,
       progressAt total i :: (runLoop cfg qrOk pages df total (i + 1) rem).2.1,
       (runLoop cfg qrOk pages df total (i + 1) rem).2.2)

/-- Observable outcome of one click of "Generate PDF": whether the temporary
directory was created (line 102) and whether it was removed before returning
(line 163), the serialized output document if one was offered for download,
the progress fractions reported, and whether the run ended in `st.error`. -/
structure RunResult where
  tempCreated : Bool
  tempDeleted : Bool
  output : Option (List OutPage)
  progress : List ℚ
  errored : Bool
deriving DecidableEq

/-- The whole `try` block of lines 101-176: create the temporary directory,
validate that the CSV has a "URL" column (lines 108-110, `st.stop` on
failure — the cleanup at line 163 is never reached on that path), run the
page loop, and only on the success path serialize the writer's pages and
remove the temporary directory.  Any exception lands in the `except` at line
175, which reports the error and performs no cleanup. -/
def processRun (cfg : Config) (qrOk : String → Bool) (pages : List Page)
    (df : DataFrame) : RunResult :=
  if "URL" ∈ df.columns then
    match runLoop cfg qrOk pages df pages.length 0 pages.length with
    | (outPages, progs, none) =>
      { tempCreated := true, tempDeleted := true, output := some outPages,
        progress := progs, errored := false }
    | (_, progs, some _) =>
      { tempCreated := true, tempDeleted := false, output := none,
        progress := progs, errored := true }
  else
    { tempCreated := true, tempDeleted := false, output := none,
      progress := [], errored := true }

/-- The QR collaborator that never raises. -/
def qrAlwaysOk : String → Bool := fun _ => true

/-- Page count of the output document, when one was produced. -/
def outPageCount (r : RunResult) : Option ℕ :=
  r.output.map List.length

/-- The content ids of the base pages present in the output document. -/
def outContentIds (r : RunResult) : Option (List ℕ) :=
  r.output.map (List.map (fun p => p.base.contentId))

/-- Example configuration from the spec's concrete scenario:
anchor = RightEdge, offset 40, y 83, size 70, no caption. -/
def exCfg : Config := ⟨HAnchor.rightEdge, 40, 83, 70, false, "", 7⟩

def exPages1 : List Page := [⟨612, 0⟩]

def exPages2 : List Page := [⟨612, 0⟩, ⟨612, 1⟩]

def exDf1 : DataFrame := ⟨["URL"], [[("URL", "https://a.com")]]⟩

def exDfNoUrl : DataFrame := ⟨["Link"], [[("Link", "https://a.com")]]⟩

def exDfEmpty : DataFrame := ⟨["URL"], []⟩

/-- Configuration with the caption enabled (the sidebar defaults for the text
settings). -/
def exCfgCap : Config :=
  ⟨HAnchor.leftEdge, 450, 83, 70, true, "Scan your custom QR code to enroll", 7⟩

lemma runLoop_err_none_alwaysOk (cfg : Config) (pages : List Page) (df : DataFrame)
    (total : ℕ) : ∀ rem i, (runLoop cfg qrAlwaysOk pages df total i rem).2.2 = none := by
  intro rem
  induction rem with
  | zero => intro i; simp [runLoop]
  | succ n ih =>
    intro i
    simp only [runLoop, qrAlwaysOk]
    split
    · rfl
    · simp only [Bool.true_eq_false, if_false]
      exact ih (i + 1)

lemma runLoop_out_shape (cfg : Config) (qrOk : String → Bool) (pages : List Page)
    (df : DataFrame) (total : ℕ) : ∀ rem i,
    (runLoop cfg qrOk pages df total i rem).2.2 = none →
    (runLoop cfg qrOk pages df total i rem).1 =
      (List.range' i (min rem (df.rows.length - i))).map (pairOut cfg pages df) := by
  intro rem
  induction rem with
  | zero => intro i _; simp [runLoop]
  | succ n ih =>
    intro i herr
    simp only [runLoop] at herr ⊢
    by_cases hlen : df.rows.length ≤ i
    · rw [if_pos hlen] at herr ⊢
      have hz : df.rows.length - i = 0 := Nat.sub_eq_zero_of_le hlen
      simp [hz]
    · rw [if_neg hlen] at herr ⊢
      by_cases hqr : qrOk (df.urlAt i) = false
      · rw [if_pos hqr] at herr
        exact absurd herr (by simp)
      · rw [if_neg hqr] at herr ⊢
        have hmin : min (n + 1) (df.rows.length - i) = min n (df.rows.length - (i + 1)) + 1 := by
          omega
        rw [hmin, List.range'_succ, List.map_cons, ih (i + 1) herr]

lemma runLoop_progress_shape (cfg : Config) (qrOk : String → Bool) (pages : List Page)
    (df : DataFrame) (total : ℕ) : ∀ rem i, ∃ k, k ≤ rem ∧
    (runLoop cfg qrOk pages df total i rem).2.1 =
      (List.range' i k).map (progressAt total) := by
  intro rem
  induction rem with
  | zero => intro i; exact ⟨0, Nat.le_refl 0, by simp [runLoop]⟩
  | succ n ih =>
    intro i
    simp only [runLoop]
    by_cases hlen : df.rows.length ≤ i
    · exact ⟨0, Nat.zero_le _, by rw [if_pos hlen]; simp⟩
    · rw [if_neg hlen]
      by_cases hqr : qrOk (df.urlAt i) = false
      · exact ⟨0, Nat.zero_le _, by rw [if_pos hqr]; simp⟩
      · rw [if_neg hqr]
        obtain ⟨k, hk, hshape⟩ := ih (i + 1)
        exact ⟨k + 1, by omega, by rw [List.range'_succ, List.map_cons, hshape]⟩

lemma runLoop_progress_eq_out (cfg : Config) (qrOk : String → Bool) (pages : List Page)
    (df : DataFrame) (total : ℕ) : ∀ rem i,
    (runLoop cfg qrOk pages df total i rem).2.1 =
      (List.range' i (runLoop cfg qrOk pages df total i rem).1.length).map
        (progressAt total) := by
  intro rem
  induction rem with
  | zero => intro i; simp [runLoop]
  | succ n ih =>
    intro i
    simp only [runLoop]
    by_cases hlen : df.rows.length ≤ i
    · rw [if_pos hlen]; simp
    · rw [if_neg hlen]
      by_cases hqr : qrOk (df.urlAt i) = false
      · rw [if_pos hqr]; simp
      · rw [if_neg hqr]
        simp only [List.length_cons, List.range'_succ, List.map_cons]
        rw [ih (i + 1)]

lemma processRun_missing (cfg : Config) (qrOk : String → Bool) (pages : List Page)
    (df : DataFrame) (hcol : "URL" ∉ df.columns) :
    processRun cfg qrOk pages df =
      { tempCreated := true, tempDeleted := false, output := none,
        progress := [], errored := true } := by
  unfold processRun
  rw [if_neg hcol]

lemma processRun_ok (cfg : Config) (qrOk : String → Bool) (pages : List Page)
    (df : DataFrame) (hcol : "URL" ∈ df.columns)
    (herr : (runLoop cfg qrOk pages df pages.length 0 pages.length).2.2 = none) :
    processRun cfg qrOk pages df =
      { tempCreated := true, tempDeleted := true,
        output :=
          some ((List.range (min pages.length df.rows.length)).map (pairOut cfg pages df)),
        progress := (runLoop cfg qrOk pages df pages.length 0 pages.length).2.1,
        errored := false } := by
  have hshape := runLoop_out_shape cfg qrOk pages df pages.length pages.length 0 herr
  simp only [Nat.sub_zero, ← List.range_eq_range'] at hshape
  unfold processRun
  rw [if_pos hcol]
  rcases hr : runLoop cfg qrOk pages df pages.length 0 pages.length with ⟨o, p, err⟩
  rw [hr] at herr hshape
  cases err with
  | none => simp only at hshape ⊢; rw [hshape]
  | some msg => exact absurd herr (by simp)

lemma processRun_err (cfg : Config) (qrOk : String → Bool) (pages : List Page)
    (df : DataFrame) (hcol : "URL" ∈ df.columns) (msg : String)
    (herr : (runLoop cfg qrOk pages df pages.length 0 pages.length).2.2 = some msg) :
    processRun cfg qrOk pages df =
      { tempCreated := true, tempDeleted := false, output := none,
        progress := (runLoop cfg qrOk pages df pages.length 0 pages.length).2.1,
        errored := true } := by
  unfold processRun
  rw [if_pos hcol]
  rcases hr : runLoop cfg qrOk pages df pages.length 0 pages.length with ⟨o, p, err⟩
  rw [hr] at herr
  cases err with
  | none => exact absurd herr (by simp)
  | some m => rfl

lemma processRun_output_inv (cfg : Config) (qrOk : String → Bool) (pages : List Page)
    (df : DataFrame) (out : List OutPage)
    (hout : (processRun cfg qrOk pages df).output = some out) :
    "URL" ∈ df.columns ∧
    (runLoop cfg qrOk pages df pages.length 0 pages.length).2.2 = none ∧
    out = (List.range (min pages.length df.rows.length)).map (pairOut cfg pages df) := by
  by_cases hcol : "URL" ∈ df.columns
  · rcases herr : (runLoop cfg qrOk pages df pages.length 0 pages.length).2.2 with _ | msg
    · rw [processRun_ok cfg qrOk pages df hcol herr] at hout
      exact ⟨hcol, rfl, (Option.some.inj hout).symm⟩
    · rw [processRun_err cfg qrOk pages df hcol msg herr] at hout
      exact absurd hout (by simp)
  · rw [processRun_missing cfg qrOk pages df hcol] at hout
    exact absurd hout (by simp)

/-- C5: if the CSV lacks a column literally named "URL", the run fails with
the missing-column error before any page is processed — no output document,
no progress report — and the check is independent of the rows and pages
(it happens once, before the page loop). -/
theorem qr_C5_missing_column_aborts (cfg : Config) (qrOk : String → Bool)
    (pages : List Page) (df : DataFrame) (hcol : "URL" ∉ df.columns) :
    processRun cfg qrOk pages df =
      { tempCreated := true, tempDeleted := false, output := none,
        progress := [], errored := true } :=
  processRun_missing cfg qrOk pages df hcol

/-- Witness for C5 at a CSV whose only column is "Link". -/
theorem qr_C5_witness :
    processRun exCfg qrAlwaysOk exPages2 exDfNoUrl =
      { tempCreated := true, tempDeleted := false, output := none,
        progress := [], errored := true } :=
  qr_C5_missing_column_aborts exCfg qrAlwaysOk exPages2 exDfNoUrl (by decide)

/-- C6: the computed placement is `x = page_width - qr_size - x_input` for the
right-edge anchor, `x = x_input` exactly for the left-edge anchor, and
`y = y_position`; nothing is clamped, so `x` can be negative. -/
theorem qr_C6_placement_coordinates :
    (∀ (cfg : Config) (w : ℚ),
      (cfg.h_anchor = HAnchor.rightEdge →
        (placement cfg w).1 = w - cfg.qr_size - cfg.x_input) ∧
      (cfg.h_anchor = HAnchor.leftEdge → (placement cfg w).1 = cfg.x_input) ∧
      (placement cfg w).2 = cfg.y_position) ∧
    (∃ (cfg : Config) (w : ℚ), (placement cfg w).1 < 0) := by
  constructor
  · intro cfg w
    refine ⟨?_, ?_, rfl⟩
    · intro h; simp [placement, h]
    · intro h; simp [placement, h]
  · exact ⟨⟨HAnchor.rightEdge, 0, 83, 100, false, "", 7⟩, 10, by norm_num [placement]⟩

/-- Witness for C6 on the right-edge example configuration at width 612. -/
theorem qr_C6_witness :
    (placement exCfg 612).1 = 612 - exCfg.qr_size - exCfg.x_input :=
  (qr_C6_placement_coordinates.1 exCfg 612).1 rfl

/-- C8: a centred caption at `(x + qr_size / 2, y - 10)` in the configured
font size is attached iff `show_text` is set and `custom_text` is non-empty;
the overlay built for a pair carries exactly that optional caption. -/
theorem qr_C8_caption_condition (cfg : Config) (x y : ℚ) (url : String) (w : ℚ) :
    (cfg.show_text = true → cfg.custom_text ≠ "" →
      captionOf cfg x y =
        some ⟨x + cfg.qr_size / 2, y - 10, cfg.text_font_size, cfg.custom_text⟩) ∧
    ((cfg.show_text = false ∨ cfg.custom_text = "") → captionOf cfg x y = none) ∧
    (mkOverlay cfg url w).caption =
      captionOf cfg (placement cfg w).1 (placement cfg w).2 := by
  refine ⟨?_, ?_, rfl⟩
  · intro hs ht
    rw [captionOf, if_pos ⟨hs, ht⟩]
  · intro h
    rw [captionOf, if_neg]
    rintro ⟨hs, ht⟩
    cases h with
    | inl h0 => rw [h0] at hs; exact Bool.false_ne_true hs
    | inr h0 => exact ht h0

/-- Witness for C8 with the caption enabled and the default caption text. -/
theorem qr_C8_witness :
    captionOf exCfgCap 450 83 =
      some ⟨450 + exCfgCap.qr_size / 2, 83 - 10, exCfgCap.text_font_size,
        exCfgCap.custom_text⟩ :=
  (qr_C8_caption_condition exCfgCap 450 83 "u" 612).1 rfl (by decide)

/-- C10: the batch procedure is deterministic — two runs on identical
configuration, identical pages and identical CSV give identical results, in
particular identical output documents (hence identical placement coordinates
and QR payloads for every pair). -/
theorem qr_C10_deterministic (qrOk : String → Bool) (cfg1 cfg2 : Config)
    (pages1 pages2 : List Page) (df1 df2 : DataFrame)
    (hc : cfg1 = cfg2) (hp : pages1 = pages2) (hd : df1 = df2) :
    processRun cfg1 qrOk pages1 df1 = processRun cfg2 qrOk pages2 df2 ∧
    (processRun cfg1 qrOk pages1 df1).output = (processRun cfg2 qrOk pages2 df2).output := by
  subst hc hp hd
  exact ⟨rfl, rfl⟩

/-- Witness for C10 on the concrete example run. -/
theorem qr_C10_witness :
    processRun exCfg qrAlwaysOk exPages1 exDf1 = processRun exCfg qrAlwaysOk exPages1 exDf1 :=
  (qr_C10_deterministic qrAlwaysOk exCfg exCfg exPages1 exPages1 exDf1 exDf1 rfl rfl rfl).1

/-- C1 is false as stated: with 2 input pages and 1 CSV row the run succeeds
but the output document has 1 page, not 2 — the loop of lines 118-119 breaks
at the first missing row instead of copying the remaining pages through. -/
theorem qr_C1_counterexample :
    outPageCount (processRun exCfg qrAlwaysOk exPages2 exDf1) = some 1 ∧
    exPages2.length = 2 ∧
    (processRun exCfg qrAlwaysOk exPages2 exDf1).errored = false := by decide

/-- C2 is false as stated: with 2 input pages and 1 CSV row, the page at
index 1 (content id 1) is not present in the output at all — only page 0 is —
although the batch itself completes successfully. -/
theorem qr_C2_counterexample :
    outContentIds (processRun exCfg qrAlwaysOk exPages2 exDf1) = some [0] ∧
    exPages2.length = 2 ∧
    (processRun exCfg qrAlwaysOk exPages2 exDf1).errored = false := by decide

/-- C4 is false as stated: on the missing-column validation path the
temporary directory is created but never deleted (`shutil.rmtree` at line 163
is only reached on the success path). -/
theorem qr_C4_counterexample :
    (processRun exCfg qrAlwaysOk exPages2 exDfNoUrl).tempCreated = true ∧
    (processRun exCfg qrAlwaysOk exPages2 exDfNoUrl).tempDeleted = false ∧
    (processRun exCfg qrAlwaysOk exPages2 exDfNoUrl).errored = true := by decide

/-- C1 amended: a successful run's output document has exactly
`min P R` pages, where `P` is the input page count and `R` the CSV row
count — equal to `P` only when `R ≥ P`. -/
theorem qr_C1_amended_min_page_count (cfg : Config) (qrOk : String → Bool)
    (pages : List Page) (df : DataFrame) (out : List OutPage)
    (hout : (processRun cfg qrOk pages df).output = some out) :
    out.length = min pages.length df.rows.length := by
  obtain ⟨-, -, hshape⟩ := processRun_output_inv cfg qrOk pages df out hout
  rw [hshape, List.length_map, List.length_range]

/-- Witness for the amended C1: 2 pages, 1 row, output length `min 2 1`. -/
theorem qr_C1_witness :
    ((List.range (min exPages2.length exDf1.rows.length)).map
      (pairOut exCfg exPages2 exDf1)).length = min exPages2.length exDf1.rows.length :=
  qr_C1_amended_min_page_count exCfg qrAlwaysOk exPages2 exDf1 _ rfl

/-- C2 amended: when `R < P` (and each pair's processing succeeds) the batch
still completes successfully, but the pages at index `≥ R` are dropped: the
output consists of exactly the first `R` processed pages. -/
theorem qr_C2_amended_early_stop (cfg : Config) (pages : List Page) (df : DataFrame)
    (hcol : "URL" ∈ df.columns) (hlt : df.rows.length < pages.length) :
    (processRun cfg qrAlwaysOk pages df).errored = false ∧
    (processRun cfg qrAlwaysOk pages df).output =
      some ((List.range df.rows.length).map (pairOut cfg pages df)) ∧
    outPageCount (processRun cfg qrAlwaysOk pages df) = some df.rows.length := by
  have herr := runLoop_err_none_alwaysOk cfg pages df pages.length pages.length 0
  have hmin : min pages.length df.rows.length = df.rows.length :=
    Nat.min_eq_right (Nat.le_of_lt hlt)
  rw [processRun_ok cfg qrAlwaysOk pages df hcol herr]
  simp [outPageCount, hmin]

/-- Witness for the amended C2: 2 pages, 1 row. -/
theorem qr_C2_witness :
    (processRun exCfg qrAlwaysOk exPages2 exDf1).errored = false ∧
    (processRun exCfg qrAlwaysOk exPages2 exDf1).output =
      some ((List.range exDf1.rows.length).map (pairOut exCfg exPages2 exDf1)) ∧
    outPageCount (processRun exCfg qrAlwaysOk exPages2 exDf1) = some exDf1.rows.length :=
  qr_C2_amended_early_stop exCfg exPages2 exDf1 (by decide) (by decide)

/-- C3: a successful run's output has exactly `min P R` pages, each carrying
exactly one QR overlay; and with a valid "URL" header but zero rows the run
succeeds with an empty output document. -/
theorem qr_C3_min_pages_one_overlay_each (cfg : Config) (qrOk : String → Bool)
    (pages : List Page) (df : DataFrame) :
    (∀ out, (processRun cfg qrOk pages df).output = some out →
      out.length = min pages.length df.rows.length ∧
      ∀ p ∈ out, p.overlays.length = 1) ∧
    ("URL" ∈ df.columns → df.rows = [] →
      (processRun cfg qrOk pages df).errored = false ∧
      (processRun cfg qrOk pages df).output = some []) := by
  constructor
  · intro out hout
    obtain ⟨-, -, hshape⟩ := processRun_output_inv cfg qrOk pages df out hout
    refine ⟨by rw [hshape, List.length_map, List.length_range], ?_⟩
    intro p hp
    rw [hshape] at hp
    obtain ⟨j, -, rfl⟩ := List.mem_map.mp hp
    rfl
  · intro hcol hrows
    have herr : (runLoop cfg qrOk pages df pages.length 0 pages.length).2.2 = none := by
      cases hP : pages.length with
      | zero => simp [runLoop]
      | succ n => simp [runLoop, hrows]
    rw [processRun_ok cfg qrOk pages df hcol herr]
    simp [hrows]

/-- Witness for C3 on the zero-row branch: "URL" header present, no rows. -/
theorem qr_C3_witness :
    (processRun exCfg qrAlwaysOk exPages2 exDfEmpty).errored = false ∧
    (processRun exCfg qrAlwaysOk exPages2 exDfEmpty).output = some [] :=
  (qr_C3_min_pages_one_overlay_each exCfg qrAlwaysOk exPages2 exDfEmpty).2 (by decide) rfl

/-- C4 amended: the temporary directory is always created, and it is removed
before the procedure returns exactly on the success path; on every error path
(missing column or a pair's processing failure) it is left behind. -/
theorem qr_C4_amended_cleanup_success_only (cfg : Config) (qrOk : String → Bool)
    (pages : List Page) (df : DataFrame) :
    (processRun cfg qrOk pages df).tempCreated = true ∧
    ((processRun cfg qrOk pages df).errored = false →
      (processRun cfg qrOk pages df).tempDeleted = true) ∧
    ((processRun cfg qrOk pages df).errored = true →
      (processRun cfg qrOk pages df).tempDeleted = false) := by
  by_cases hcol : "URL" ∈ df.columns
  · rcases herr : (runLoop cfg qrOk pages df pages.length 0 pages.length).2.2 with _ | msg
    · rw [processRun_ok cfg qrOk pages df hcol herr]
      exact ⟨rfl, fun _ => rfl, fun h => absurd h (by simp)⟩
    · rw [processRun_err cfg qrOk pages df hcol msg herr]
      exact ⟨rfl, fun h => absurd h (by simp), fun _ => rfl⟩
  · rw [processRun_missing cfg qrOk pages df hcol]
    exact ⟨rfl, fun h => absurd h (by simp), fun _ => rfl⟩

/-- Witness for the amended C4: a successful run does delete the directory. -/
theorem qr_C4_witness :
    (processRun exCfg qrAlwaysOk exPages1 exDf1).tempDeleted = true :=
  (qr_C4_amended_cleanup_success_only exCfg qrAlwaysOk exPages1 exDf1).2.1 (by decide)

/-- C7: when `R ≥ P`, a successful run's output has all `P` pages, and page
`j` of the output is base page `j` merged with exactly the one overlay whose
payload is row `j`'s URL and whose rectangle comes from the placement
computation on page `j`'s width. -/
theorem qr_C7_full_coverage (cfg : Config) (qrOk : String → Bool)
    (pages : List Page) (df : DataFrame) (out : List OutPage)
    (hRP : pages.length ≤ df.rows.length)
    (hout : (processRun cfg qrOk pages df).output = some out) :
    out.length = pages.length ∧
    out = (List.range pages.length).map (pairOut cfg pages df) ∧
    ∀ j, j < pages.length →
      out[j]? = some (pairOut cfg pages df j) ∧
      (pairOut cfg pages df j).overlays =
        [mkOverlay cfg (df.urlAt j) ((pages.getD j defaultPage).width)] := by
  obtain ⟨-, -, hshape⟩ := processRun_output_inv cfg qrOk pages df out hout
  have hmin : min pages.length df.rows.length = pages.length := Nat.min_eq_left hRP
  rw [hmin] at hshape
  refine ⟨by rw [hshape, List.length_map, List.length_range], hshape, ?_⟩
  intro j hj
  refine ⟨?_, rfl⟩
  rw [hshape, List.getElem?_map, List.getElem?_range hj]
  rfl

/-- Witness for C7: one page, one row; the output's page 0 is the processed
pair 0. -/
theorem qr_C7_witness :
    ((List.range exPages1.length).map (pairOut exCfg exPages1 exDf1))[0]? =
      some (pairOut exCfg exPages1 exDf1 0) :=
  ((qr_C7_full_coverage exCfg qrAlwaysOk exPages1 exDf1 _ (by decide) rfl).2.2 0
    (by decide)).1

/-- C9: a progress report happens after each processed pair, and only then:
for every loop state, the reported list is exactly one fraction per page the
loop appended, the report for pair `j` being `(j + 1) / total_pages`; on a
successful run the reports are exactly `(j + 1) / total_pages` for
`j = 0, ..., out.length - 1` where `out` is the output document; and every
reported value lies in `[0, 1]`. -/
theorem qr_C9_progress_after_each_pair (cfg : Config) (qrOk : String → Bool)
    (pages : List Page) (df : DataFrame) :
    (∀ i rem,
      (runLoop cfg qrOk pages df pages.length i rem).2.1 =
        (List.range' i (runLoop cfg qrOk pages df pages.length i rem).1.length).map
          (progressAt pages.length)) ∧
    (∀ out, (processRun cfg qrOk pages df).output = some out →
      (processRun cfg qrOk pages df).progress =
        (List.range out.length).map (progressAt pages.length)) ∧
    (∀ q ∈ (processRun cfg qrOk pages df).progress, 0 ≤ q ∧ q ≤ 1) := by
  refine ⟨?_, ?_, ?_⟩
  · intro i rem
    exact runLoop_progress_eq_out cfg qrOk pages df pages.length rem i
  · intro out hout
    obtain ⟨hcol, herr, hshape⟩ := processRun_output_inv cfg qrOk pages df out hout
    have hlen : (runLoop cfg qrOk pages df pages.length 0 pages.length).1.length =
        out.length := by
      rw [runLoop_out_shape cfg qrOk pages df pages.length pages.length 0 herr, hshape]
      simp
    have hprog : (processRun cfg qrOk pages df).progress =
        (runLoop cfg qrOk pages df pages.length 0 pages.length).2.1 := by
      rw [processRun_ok cfg qrOk pages df hcol herr]
    rw [hprog, runLoop_progress_eq_out cfg qrOk pages df pages.length pages.length 0, hlen,
      ← List.range_eq_range']
  · have hmain : ∃ k, k ≤ pages.length ∧
        (processRun cfg qrOk pages df).progress =
          (List.range k).map (progressAt pages.length) := by
      by_cases hcol : "URL" ∈ df.columns
      · obtain ⟨k, hk, hshape⟩ :=
          runLoop_progress_shape cfg qrOk pages df pages.length pages.length 0
        rw [← List.range_eq_range'] at hshape
        refine ⟨k, hk, ?_⟩
        rcases herr : (runLoop cfg qrOk pages df pages.length 0 pages.length).2.2 with _ | msg
        · rw [processRun_ok cfg qrOk pages df hcol herr]
          exact hshape
        · rw [processRun_err cfg qrOk pages df hcol msg herr]
          exact hshape
      · exact ⟨0, Nat.zero_le _,
          by rw [processRun_missing cfg qrOk pages df hcol]; simp⟩
    obtain ⟨k, hk, hshape⟩ := hmain
    intro q hq
    rw [hshape] at hq
    obtain ⟨j, hj, rfl⟩ := List.mem_map.mp hq
    have hjP : j < pages.length := lt_of_lt_of_le (List.mem_range.mp hj) hk
    constructor
    · unfold progressAt
      positivity
    · unfold progressAt
      apply div_le_one_of_le₀
      · exact_mod_cast Nat.succ_le_of_lt hjP
      · positivity

/-- Witness for C9: on the one-page, one-row run the reports are exactly one
fraction per processed pair, and that fraction lies in `[0, 1]`. -/
theorem qr_C9_witness :
    (processRun exCfg qrAlwaysOk exPages1 exDf1).progress =
      (List.range
        ((List.range exPages1.length).map (pairOut exCfg exPages1 exDf1)).length).map
        (progressAt exPages1.length) ∧
    (0 ≤ progressAt exPages1.length 0 ∧ progressAt exPages1.length 0 ≤ 1) :=
  ⟨(qr_C9_progress_after_each_pair exCfg qrAlwaysOk exPages1 exDf1).2.1 _ rfl,
   (qr_C9_progress_after_each_pair exCfg qrAlwaysOk exPages1 exDf1).2.2
     (progressAt exPages1.length 0) (List.mem_cons_self _ _)⟩
